import Mathlib

/-!
Verification of the Organizm ecosystem simulation.

This file gives a shallow embedding, over the rationals, of the core data
model and operations of the simulation: animals (the Animal base class and
its Herbivore and Carnivore behaviours), environment resources, trait
mixing, the per-tick update, the interaction pass of the Simulation class,
and the statistics snapshot.  JavaScript numbers are modelled as rationals;
each call of Math.random is modelled by an explicit parameter r with
0 <= r and r < 1.  The comparison of distanceTo (a square root) with a
constant c is embedded as the equivalent comparison of the squared distance
with c^2, which is exact because the square root is monotone on
nonnegative numbers.
-/

namespace Organizm

/-- States of an animal, from AnimalState in core/types.ts. -/
inductive AnimalState : Type
  | IDLE
  | MOVING
  | EATING
  | SLEEPING
  | MATING
  | DEAD
deriving DecidableEq, Repr

/-- Compass directions, from Direction in core/types.ts. -/
inductive Direction : Type
  | NORTH
  | NORTHEAST
  | EAST
  | SOUTHEAST
  | SOUTH
  | SOUTHWEST
  | WEST
  | NORTHWEST
  | NONE
deriving DecidableEq, Repr

/-- Resource kinds, from ResourceType in core/types.ts. -/
inductive ResourceType : Type
  | PLANT
  | SMALL_ANIMAL
  | LARGE_ANIMAL
  | WATER
deriving DecidableEq, Repr

/-- The two concrete Animal subclasses of the core package. -/
inductive Species : Type
  | herbivore
  | carnivore
deriving DecidableEq, Repr

/-- A 2D position, from Position in core/types.ts. -/
structure Position : Type where
  x : ℚ
  y : ℚ
deriving DecidableEq, Repr

/-- Heritable traits of an animal, from Traits in core/types.ts. -/
structure Traits : Type where
  speed : ℚ
  strength : ℚ
  perception : ℚ
  metabolism : ℚ
  reproductiveUrge : ℚ
  lifespan : ℚ
deriving DecidableEq, Repr

/-- Per-animal statistics, from AnimalStats in core/types.ts.  The field
foodEaten is rational because Herbivore adds the consumed amount to it. -/
structure AnimalStats : Type where
  generation : ℕ
  children : ℕ
  foodEaten : ℚ
  distanceTraveled : ℚ
  timeAlive : ℚ
deriving DecidableEq, Repr

/-- An animal of the core Animal class (core/Animal.ts).  The fields
envWidth and envHeight embed the bounds of the Environment object the
animal holds a reference to; isDead embeds the private liveness flag. -/
structure Animal : Type where
  species : Species
  position : Position
  direction : Direction
  state : AnimalState
  age : ℚ
  energy : ℚ
  health : ℚ
  traits : Traits
  stats : AnimalStats
  isDead : Bool
  envWidth : ℚ
  envHeight : ℚ
deriving DecidableEq, Repr

/-- The Animal constructor (core/Animal.ts): position and traits are given,
direction starts NONE, state IDLE, age 0, energy 100, health 100, and the
stats start at zero except for the given generation (default 1). -/
def mkAnimal (species : Species) (position : Position) (traits : Traits)
    (envWidth envHeight : ℚ) (generation : ℕ := 1) : Animal :=
  { species := species
    position := position
    direction := Direction.NONE
    state := AnimalState.IDLE
    age := 0
    energy := 100
    health := 100
    traits := traits
    stats := { generation := generation, children := 0, foodEaten := 0,
               distanceTraveled := 0, timeAlive := 0 }
    isDead := false
    envWidth := envWidth
    envHeight := envHeight }

/-- mixTraits from utils/helpers.ts.  The two Math.random() draws are the
parameters w (the mixing weight) and m (the mutation draw); the default
mutationFactor is 0.1.  The base mix is traitA * w + traitB * (1 - w), the
mutation is (2m - 1) times max(traitA, traitB) * mutationFactor, and the
result is clamped below at 0. -/
def mixTraits (traitA traitB : ℚ) (w m : ℚ) (mutationFactor : ℚ := 1/10) : ℚ :=
  let baseMix := traitA * w + traitB * (1 - w)
  let mutationRange := max traitA traitB * mutationFactor
  let mutation := (m * 2 - 1) * mutationRange
  max 0 (baseMix + mutation)

/-- A consumable resource, from core/Resource.ts.  isDepleted embeds the
private depletion flag. -/
structure Resource : Type where
  position : Position
  type : ResourceType
  amount : ℚ
  regenerationRate : ℚ
  isDepleted : Bool
deriving DecidableEq, Repr

/-- The Resource constructor: the depletion flag starts false, whatever the
initial amount (core/Resource.ts, constructor). -/
def mkResource (position : Position) (type : ResourceType) (amount : ℚ)
    (regenerationRate : ℚ := 0) : Resource :=
  { position := position, type := type, amount := amount,
    regenerationRate := regenerationRate, isDepleted := false }

/-- The depleted getter of Resource: it returns the flag, not a comparison
of the amount with zero. -/
def Resource.depleted (r : Resource) : Bool :=
  r.isDepleted

/-- Resource.update: a depleted resource is returned unchanged; otherwise,
if the regeneration rate is positive the amount grows by rate * deltaTime. -/
def Resource.update (r : Resource) (deltaTime : ℚ) : Resource :=
  if r.isDepleted then r
  else if 0 < r.regenerationRate then
    { r with amount := r.amount + r.regenerationRate * deltaTime }
  else r

/-- Resource.consume: on a depleted resource it returns 0 and changes
nothing; otherwise it consumes min(amount, consumeAmount), subtracts it,
and sets the depletion flag when the remaining amount is at most 0.
The first component is the amount actually consumed. -/
def Resource.consume (r : Resource) (consumeAmount : ℚ) : ℚ × Resource :=
  if r.isDepleted then (0, r)
  else
    let actualConsumption := min r.amount consumeAmount
    let amount' := r.amount - actualConsumption
    (actualConsumption,
     { r with amount := amount', isDepleted := decide (amount' ≤ 0) })

/-- Environment.updateResources (core/Environment.ts): update every
resource for the tick, then keep exactly those that are not depleted or
have a positive regeneration rate. -/
def updateResources (resources : List Resource) (deltaTime : ℚ) :
    List Resource :=
  (resources.map (fun r => r.update deltaTime)).filter
    (fun r => !r.depleted || decide (0 < r.regenerationRate))

/-- Animal.consumeEnergy: subtract the amount and clamp below at 0
(core/Animal.ts).  No upper clamp is applied here. -/
def Animal.consumeEnergy (a : Animal) (amount : ℚ) : Animal :=
  { a with energy := max 0 (a.energy - amount) }

/-- Animal.gainEnergy: add the amount and cap at 100 (core/Animal.ts).
No lower clamp is applied here. -/
def Animal.gainEnergy (a : Animal) (amount : ℚ) : Animal :=
  { a with energy := min 100 (a.energy + amount) }

/-- The public energy setter of Animal (core/Animal.ts): it stores the
value directly, with no clamping. -/
def Animal.setEnergy (a : Animal) (value : ℚ) : Animal :=
  { a with energy := value }

/-- Animal.die: if already dead do nothing, otherwise set the liveness
flag and move to the DEAD state. -/
def Animal.die (a : Animal) : Animal :=
  if a.isDead then a
  else { a with isDead := true, state := AnimalState.DEAD }

/-- The direction vectors of Animal.updatePosition; the diagonal entries
use the literal 0.7071 of the source. -/
def directionVector : Direction → Position
  | Direction.NORTH => ⟨0, -1⟩
  | Direction.NORTHEAST => ⟨7071/10000, -(7071/10000)⟩
  | Direction.EAST => ⟨1, 0⟩
  | Direction.SOUTHEAST => ⟨7071/10000, 7071/10000⟩
  | Direction.SOUTH => ⟨0, 1⟩
  | Direction.SOUTHWEST => ⟨-(7071/10000), 7071/10000⟩
  | Direction.WEST => ⟨-1, 0⟩
  | Direction.NORTHWEST => ⟨-(7071/10000), -(7071/10000)⟩
  | Direction.NONE => ⟨0, 0⟩

/-- Environment.boundPosition (core/Environment.ts): clamp each coordinate
into the interval from 0 to the bound minus 0.001. -/
def boundPosition (width height : ℚ) (p : Position) : Position :=
  ⟨max 0 (min (width - 1/1000) p.x), max 0 (min (height - 1/1000) p.y)⟩

/-- Animal.updatePosition: move by the direction vector scaled by the
distance, then clamp with the environment bounds the animal holds. -/
def Animal.updatePosition (a : Animal) (distance : ℚ) : Animal :=
  let v := directionVector a.direction
  let newPosition : Position :=
    ⟨a.position.x + v.x * distance, a.position.y + v.y * distance⟩
  { a with position := boundPosition a.envWidth a.envHeight newPosition }

/-- Animal.performSleeping: regain energy at 1.5 times the metabolism. -/
def Animal.performSleeping (a : Animal) (deltaTime : ℚ) : Animal :=
  a.gainEnergy (3/2 * a.traits.metabolism * deltaTime)

/-- Animal.performMoving: add the distance to distanceTraveled, update the
position, and consume energy at 0.2 times the speed. -/
def Animal.performMoving (a : Animal) (deltaTime : ℚ) : Animal :=
  let distance := a.traits.speed * deltaTime
  let a1 := { a with stats :=
    { a.stats with distanceTraveled := a.stats.distanceTraveled + distance } }
  (a1.updatePosition distance).consumeEnergy (1/5 * a.traits.speed * deltaTime)

/-- Animal.performEating: empty in the base class. -/
def Animal.performEating (a : Animal) (_deltaTime : ℚ) : Animal :=
  a

/-- Animal.performMating: the energy cost of mating is 10 per time unit. -/
def Animal.performMating (a : Animal) (deltaTime : ℚ) : Animal :=
  a.consumeEnergy (10 * deltaTime)

/-- Animal.performIdle: an idle animal consumes a tenth of its
metabolism. -/
def Animal.performIdle (a : Animal) (deltaTime : ℚ) : Animal :=
  a.consumeEnergy (1/10 * a.traits.metabolism * deltaTime)

/-- Animal.performStateAction: dispatch on the current state; the IDLE
case is also the default branch of the switch in the source. -/
def Animal.performStateAction (a : Animal) (deltaTime : ℚ) : Animal :=
  match a.state with
  | AnimalState.SLEEPING => a.performSleeping deltaTime
  | AnimalState.MOVING => a.performMoving deltaTime
  | AnimalState.EATING => a.performEating deltaTime
  | AnimalState.MATING => a.performMating deltaTime
  | _ => a.performIdle deltaTime

/-- Animal.update (core/Animal.ts): a dead animal is unchanged; otherwise
age and timeAlive grow by deltaTime, energy is drained by
metabolism * deltaTime, and then the animal dies and skips its behaviour
exactly when age is at least the lifespan or the energy is at most 0;
otherwise the state action runs. -/
def Animal.update (a : Animal) (deltaTime : ℚ) : Animal :=
  if a.isDead then a
  else
    let a1 := { a with age := a.age + deltaTime,
                       stats := { a.stats with
                         timeAlive := a.stats.timeAlive + deltaTime } }
    let a2 := a1.consumeEnergy (a1.traits.metabolism * deltaTime)
    if a2.traits.lifespan ≤ a2.age ∨ a2.energy ≤ 0 then a2.die
    else a2.performStateAction deltaTime

/-- Herbivore.canMateWith (core/Herbivore.ts): same species, both energies
at least 50, and both ages inside the window from 0.1 to 0.8 of the
lifespan of the calling animal. -/
def herbivoreCanMateWith (self partner : Animal) : Bool :=
  if partner.species ≠ Species.herbivore then false
  else if self.energy < 50 ∨ partner.energy < 50 then false
  else
    let maturityAge := self.traits.lifespan * (1/10)
    let maxReproductiveAge := self.traits.lifespan * (8/10)
    if self.age < maturityAge ∨ partner.age < maturityAge then false
    else if maxReproductiveAge < self.age ∨ maxReproductiveAge < partner.age then
      false
    else true

/-- Carnivore.canMateWith (core/Carnivore.ts): same species, both energies
at least 60, and both ages inside the window from 0.15 to 0.75 of the
lifespan of the calling animal. -/
def carnivoreCanMateWith (self partner : Animal) : Bool :=
  if partner.species ≠ Species.carnivore then false
  else if self.energy < 60 ∨ partner.energy < 60 then false
  else
    let maturityAge := self.traits.lifespan * (15/100)
    let maxReproductiveAge := self.traits.lifespan * (75/100)
    if self.age < maturityAge ∨ partner.age < maturityAge then false
    else if maxReproductiveAge < self.age ∨ maxReproductiveAge < partner.age then
      false
    else true

/-- The abstract canMateWith of Animal, dispatched to the subclass
implementation of the calling animal. -/
def Animal.canMateWith (self partner : Animal) : Bool :=
  match self.species with
  | Species.herbivore => herbivoreCanMateWith self partner
  | Species.carnivore => carnivoreCanMateWith self partner

/-- Carnivore.mate, the override in core/Carnivore.ts: only with another
carnivore, and only when both energies exceed 70; then the caller moves to
MATING and pays 20 energy.  The partner object is never written.  The pair
returned is the state of the caller and of the partner after the call. -/
def carnivoreMate (self partner : Animal) : Animal × Animal :=
  if partner.species ≠ Species.carnivore then (self, partner)
  else if 70 < self.energy ∧ 70 < partner.energy then
    (({ self with state := AnimalState.MATING }).consumeEnergy 20, partner)
  else (self, partner)

/-- Animal.mate: a carnivore runs its override; otherwise the base method
runs, which rejects when canMateWith fails and else moves the caller to
MATING.  The partner object is never written; the pair returned is the
state of the caller and of the partner after the call. -/
def Animal.mate (self partner : Animal) : Animal × Animal :=
  match self.species with
  | Species.carnivore => carnivoreMate self partner
  | Species.herbivore =>
    if herbivoreCanMateWith self partner then
      ({ self with state := AnimalState.MATING }, partner)
    else (self, partner)

/-- Herbivore.createOffspring (core/Herbivore.ts).  The litter size is
max(1, floor of the sum of both reproductiveUrge values divided by 30)).
Each child mixes every trait with mixTraits at the default mutation factor
and is created near the position of the calling parent, bounded by the
environment, with generation one more than the generation of the calling
parent.  The stream rnd supplies the Math.random draws: child i uses the
14 values at indices 14 i to 14 i + 13 (two per trait in source order,
then one per coordinate). -/
def herbivoreCreateOffspring (self partner : Animal) (rnd : ℕ → ℚ) :
    List Animal :=
  let littersizeFactor :=
    self.traits.reproductiveUrge + partner.traits.reproductiveUrge
  let litterSize := (max 1 ⌊littersizeFactor / 30⌋).toNat
  (List.range litterSize).map (fun i =>
    let k := 14 * i
    let childTraits : Traits :=
      { speed := mixTraits self.traits.speed partner.traits.speed
          (rnd k) (rnd (k+1))
        strength := mixTraits self.traits.strength partner.traits.strength
          (rnd (k+2)) (rnd (k+3))
        perception := mixTraits self.traits.perception partner.traits.perception
          (rnd (k+4)) (rnd (k+5))
        metabolism := mixTraits self.traits.metabolism partner.traits.metabolism
          (rnd (k+6)) (rnd (k+7))
        reproductiveUrge := mixTraits self.traits.reproductiveUrge
          partner.traits.reproductiveUrge (rnd (k+8)) (rnd (k+9))
        lifespan := mixTraits self.traits.lifespan partner.traits.lifespan
          (rnd (k+10)) (rnd (k+11)) }
    let childPosition : Position :=
      ⟨self.position.x + (rnd (k+12) * 2 - 1),
       self.position.y + (rnd (k+13) * 2 - 1)⟩
    mkAnimal Species.herbivore
      (boundPosition self.envWidth self.envHeight childPosition)
      childTraits self.envWidth self.envHeight
      (self.stats.generation + 1))

/-- Animal.reproduce (core/Animal.ts) with the createOffspring of
Herbivore, the subclass the Simulation instantiates: the children counter
of the caller grows by one, then the offspring list is created.  The pair
returned is the updated caller and the litter. -/
def Animal.reproduce (self partner : Animal) (rnd : ℕ → ℚ) :
    Animal × List Animal :=
  let self' := { self with stats :=
    { self.stats with children := self.stats.children + 1 } }
  (self', herbivoreCreateOffspring self' partner rnd)

/-- A carnivore (core/Carnivore.ts): the underlying animal together with
the hunting fields of the subclass. -/
structure Carnivore : Type where
  animal : Animal
  lastHuntTime : ℚ
  huntCooldown : ℚ
deriving DecidableEq, Repr

/-- Carnivore.eat, the override in core/Carnivore.ts: eating a small
animal gains 30 energy and increments foodEaten; any other resource type
does nothing.  The state is not changed. -/
def Carnivore.eat (self : Carnivore) (resourceType : ResourceType) :
    Carnivore :=
  if resourceType = ResourceType.SMALL_ANIMAL then
    let a1 := self.animal.gainEnergy 30
    { self with animal := { a1 with stats :=
        { a1.stats with foodEaten := a1.stats.foodEaten + 1 } } }
  else self

/-- The attack power of Carnivore.attackPrey: strength * (1 + r * 0.5),
where r is the Math.random draw of the attack. -/
def attackPower (self : Carnivore) (r : ℚ) : ℚ :=
  self.animal.traits.strength * (1 + r * (1/2))

/-- The prey defense of Carnivore.attackPrey:
prey speed * 0.5 + prey energy * 0.01. -/
def preyDefense (prey : Animal) : ℚ :=
  prey.traits.speed * (1/2) + prey.energy * (1/100)

/-- Carnivore.attackPrey (core/Carnivore.ts).  The hunt timer resets; when
the attack power exceeds the prey defense, the attacker calls eat on a
small animal, then gains min(preyHealth * 0.5, 50) energy, increments
foodEaten, and kills the prey; on failure the attacker pays 10 energy and
the prey is unchanged.  The pair returned is the attacker and the prey
after the call. -/
def Carnivore.attackPrey (self : Carnivore) (prey : Animal) (r : ℚ) :
    Carnivore × Animal :=
  let self0 := { self with lastHuntTime := 0 }
  if preyDefense prey < attackPower self0 r then
    let self1 := self0.eat ResourceType.SMALL_ANIMAL
    let energyGained := min (prey.health * (1/2)) 50
    let a2 := self1.animal.gainEnergy energyGained
    let a3 := { a2 with stats :=
      { a2.stats with foodEaten := a2.stats.foodEaten + 1 } }
    ({ self1 with animal := a3 }, prey.die)
  else
    ({ self0 with animal := self0.animal.consumeEnergy 10 }, prey)

/-- The squared distance between two positions.  Animal.distanceTo is the
square root of this; every comparison of distanceTo with a constant c is
embedded as the comparison of this value with c^2. -/
def distanceSq (p q : Position) : ℚ :=
  (q.x - p.x) ^ 2 + (q.y - p.y) ^ 2

/-- A junk animal used as the default of list indexing; the loops of the
interaction pass only read indices below the list length. -/
def dummyAnimal : Animal :=
  mkAnimal Species.herbivore ⟨0, 0⟩ ⟨0, 0, 0, 0, 0, 0⟩ 0 0

/-- The inner loop over j of Simulation.handleAnimalInteractions
(simulation/Simulation.ts) for a fixed i, with the animal list and the
count c of reproduce calls so far as state.  A dead animal at j is
skipped; when the distance is below 2 (squared distance below 4) and both
energies exceed 50, mate is invoked on the animal at i with the animal at
j as partner, and when both then sit in the MATING state, reproduce runs
with the fresh random stream (streams c) and the litter is appended to the
list.  The fuel argument bounds the number of iterations, since appended
offspring extend the loop bound of the source dynamically. -/
def interactInner (streams : ℕ → ℕ → ℚ) (i : ℕ) :
    ℕ → ℕ → List Animal → ℕ → List Animal × ℕ
  | 0, _, animals, c => (animals, c)
  | fuel + 1, j, animals, c =>
    if animals.length ≤ j then (animals, c)
    else
      let animalA := animals.getD i dummyAnimal
      let animalB := animals.getD j dummyAnimal
      if animalB.isDead then interactInner streams i fuel (j+1) animals c
      else if distanceSq animalA.position animalB.position < 4 then
        if 50 < animalA.energy ∧ 50 < animalB.energy then
          let m := animalA.mate animalB
          let animals1 := (animals.set i m.1).set j m.2
          let mA := animals1.getD i dummyAnimal
          let mB := animals1.getD j dummyAnimal
          if mA.state = AnimalState.MATING ∧ mB.state = AnimalState.MATING then
            let rep := mA.reproduce mB (streams c)
            interactInner streams i fuel (j+1)
              ((animals1.set i rep.1) ++ rep.2) (c+1)
          else interactInner streams i fuel (j+1) animals1 c
        else interactInner streams i fuel (j+1) animals c
      else interactInner streams i fuel (j+1) animals c

/-- The outer loop over i of Simulation.handleAnimalInteractions: a dead
animal at i skips its whole inner loop. -/
def interactOuter (streams : ℕ → ℕ → ℚ) :
    ℕ → ℕ → List Animal → ℕ → List Animal × ℕ
  | 0, _, animals, c => (animals, c)
  | fuel + 1, i, animals, c =>
    if animals.length ≤ i then (animals, c)
    else
      let animalA := animals.getD i dummyAnimal
      if animalA.isDead then interactOuter streams fuel (i+1) animals c
      else
        let inner := interactInner streams i (fuel + 1) (i+1) animals c
        interactOuter streams fuel (i+1) inner.1 inner.2

/-- One pass of Simulation.handleAnimalInteractions over the animal list.
Each reproduce call uses its own fresh stream of random draws, streams c
for the c-th call of the pass. -/
def handleAnimalInteractions (animals : List Animal)
    (streams : ℕ → ℕ → ℚ) (fuel : ℕ) : List Animal :=
  (interactOuter streams fuel 0 animals 0).1

/-- The keys of the statistics object; the vocabulary is that of the
specification and of the callers in index.ts.  The object literal of
Simulation.getStatistics uses only the first five. -/
inductive StatField : Type
  | totalAnimals
  | herbivoreCount
  | carnivoreCount
  | plantsCount
  | averageGeneration
  | highestGeneration
  | simulationTime
deriving DecidableEq, Repr

/-- Simulation.getStatistics (simulation/Simulation.ts), modelled as the
association list of the fields of the returned object literal, in source
order: totalAnimals is the length of the animal list, herbivoreCount
counts the animals that are instances of Herbivore, averageGeneration is
the mean generation (0 for an empty list), highestGeneration is the
maximum generation with initial accumulator 0, and the simulation time is
passed through.  No carnivoreCount or plantsCount field is produced. -/
def getStatistics (animals : List Animal) (simulationTime : ℚ) :
    List (StatField × ℚ) :=
  let totalAnimals := animals.length
  let herbivores :=
    (animals.filter (fun a => decide (a.species = Species.herbivore))).length
  let totalGenerations :=
    animals.foldl (fun sum animal => sum + (animal.stats.generation : ℚ)) 0
  let averageGeneration :=
    if 0 < totalAnimals then totalGenerations / (totalAnimals : ℚ) else 0
  let highestGeneration :=
    animals.foldl (fun mx animal => max mx (animal.stats.generation : ℚ)) 0
  [(StatField.totalAnimals, (totalAnimals : ℚ)),
   (StatField.herbivoreCount, (herbivores : ℚ)),
   (StatField.averageGeneration, averageGeneration),
   (StatField.highestGeneration, highestGeneration),
   (StatField.simulationTime, simulationTime)]

/-! Concrete fixtures used by the closed theorems below. -/

/-- The DEFAULT_HERBIVORE_TRAITS of simulation/Simulation.ts. -/
def defaultHerbivoreTraits : Traits :=
  ⟨2, 3, 8, 1/2, 10, 100⟩

/-- A random stream that always draws 0, a value inside the range of
Math.random. -/
def rndZero : ℕ → ℚ :=
  fun _ => 0

/-- A family of random streams that always draw 0. -/
def streamsZero : ℕ → ℕ → ℚ :=
  fun _ _ => 0

/-- A freshly constructed default herbivore. -/
def freshHerbivore : Animal :=
  mkAnimal Species.herbivore ⟨50, 50⟩ defaultHerbivoreTraits 100 100

/-- A mature herbivore with energy 60 at position (50, 50); its age 20
lies inside the maturity window from 10 to 80 of the lifespan 100. -/
def herbA : Animal :=
  { freshHerbivore with energy := 60, age := 20 }

/-- A second mature herbivore with the same values as herbA. -/
def herbB : Animal :=
  { freshHerbivore with energy := 60, age := 20 }

/-- A default herbivore of generation 3, used as a reproduction partner. -/
def genThreePartner : Animal :=
  mkAnimal Species.herbivore ⟨50, 50⟩ defaultHerbivoreTraits 100 100 3

/-- A plant resource constructed with amount 0 and no regeneration. -/
def zeroAmountPlant : Resource :=
  mkResource ⟨10, 10⟩ ResourceType.PLANT 0 0

/-- A plant that has been consumed to amount 0 (hence its depletion flag
is set) and has regeneration rate 1. -/
def depletedPlant : Resource :=
  ⟨⟨0, 0⟩, ResourceType.PLANT, 0, 1, true⟩

/-- A plant resource with amount 10 and regeneration rate 0.5. -/
def testPlant : Resource :=
  mkResource ⟨1, 1⟩ ResourceType.PLANT 10 (1/2)

/-- A carnivore with strength 100 and energy 0. -/
def predatorC : Carnivore :=
  ⟨{ mkAnimal Species.carnivore ⟨0, 0⟩ ⟨2, 100, 8, 1/2, 10, 100⟩ 100 100 with
      energy := 0 }, 5, 10⟩

/-- A prey herbivore with speed 1, energy 0 and the default health 100. -/
def preyWeak : Animal :=
  { mkAnimal Species.herbivore ⟨0, 0⟩ ⟨1, 3, 8, 1/2, 10, 100⟩ 100 100 with
      energy := 0 }

/-- Default herbivore traits with the metabolism raised to 50. -/
def highMetabolismTraits : Traits :=
  ⟨2, 3, 8, 50, 10, 100⟩

/-! Helper lemmas shared by the proofs below. -/

/-- die always leaves the liveness flag set. -/
theorem die_isDead (a : Animal) : (a.die).isDead = true := by
  by_cases h : a.isDead <;> simp [Animal.die, h]

/-- Updating a dead animal changes nothing. -/
theorem update_dead (a : Animal) (dt : ℚ) (h : a.isDead = true) :
    a.update dt = a := by
  simp [Animal.update, h]

/-- The state action of the base Animal class never changes the state. -/
theorem performStateAction_state (b : Animal) (dt : ℚ) :
    (b.performStateAction dt).state = b.state := by
  cases h : b.state <;>
    simp [Animal.performStateAction, h, Animal.performSleeping,
      Animal.performMoving, Animal.performEating, Animal.performMating,
      Animal.performIdle, Animal.updatePosition, Animal.consumeEnergy,
      Animal.gainEnergy]

/-- The inner interaction loop stops when the index reaches the length of
the list, for every fuel value. -/
theorem interactInner_exit (streams : ℕ → ℕ → ℚ) (i fuel j : ℕ)
    (animals : List Animal) (c : ℕ) (h : animals.length ≤ j) :
    interactInner streams i fuel j animals c = (animals, c) := by
  cases fuel with
  | zero => rfl
  | succ n => simp only [interactInner, if_pos h]

/-- The outer interaction loop stops when the index reaches the length of
the list, for every fuel value. -/
theorem interactOuter_exit (streams : ℕ → ℕ → ℚ) (fuel i : ℕ)
    (animals : List Animal) (c : ℕ) (h : animals.length ≤ i) :
    interactOuter streams fuel i animals c = (animals, c) := by
  cases fuel with
  | zero => rfl
  | succ n => simp only [interactOuter, if_pos h]

/-! Theorems about the claims of the specification. -/

/-- Claim C6, counterexample to the clause that a resource whose amount is
at most 0 is depleted: a resource constructed with amount 0 has the
depletion flag unset, because the flag is only ever set inside consume. -/
theorem C6_counterexample :
    zeroAmountPlant.amount ≤ 0 ∧ zeroAmountPlant.depleted = false := by
  constructor
  · norm_num [zeroAmountPlant, mkResource]
  · rfl

/-- Claim C6 (amended): for a resource with amount A at least 0 and
a request x at least 0, consume on a non-depleted resource returns
min(x, A), leaves amount A - min(x, A) and sets the depletion flag exactly
when the remaining amount is at most 0; consume on a depleted resource
returns 0 and leaves the resource unchanged. -/
theorem C6_theorem (r : Resource) (x : ℚ) (hA : 0 ≤ r.amount) (hx : 0 ≤ x) :
    (r.isDepleted = false →
      (r.consume x).1 = min x r.amount ∧
      (r.consume x).2.amount = r.amount - min x r.amount ∧
      ((r.consume x).2.isDepleted = true ↔ (r.consume x).2.amount ≤ 0)) ∧
    (r.isDepleted = true →
      (r.consume x).1 = 0 ∧ (r.consume x).2 = r) := by
  constructor
  · intro h
    simp only [Resource.consume, h, Bool.false_eq_true, if_false]
    refine ⟨min_comm _ _, by rw [min_comm], ?_⟩
    simp [decide_eq_true_eq]
  · intro h
    simp [Resource.consume, h]

/-- Witness for C6 at the concrete plant with amount 10 and request 4. -/
theorem C6_witness :
    (0 ≤ testPlant.amount ∧ (0:ℚ) ≤ 4) ∧
    ((testPlant.isDepleted = false →
      (testPlant.consume 4).1 = min 4 testPlant.amount ∧
      (testPlant.consume 4).2.amount = testPlant.amount - min 4 testPlant.amount ∧
      ((testPlant.consume 4).2.isDepleted = true ↔
        (testPlant.consume 4).2.amount ≤ 0)) ∧
    (testPlant.isDepleted = true →
      (testPlant.consume 4).1 = 0 ∧ (testPlant.consume 4).2 = testPlant)) :=
  ⟨⟨by norm_num [testPlant, mkResource], by norm_num⟩,
   C6_theorem testPlant 4 (by norm_num [testPlant, mkResource]) (by norm_num)⟩

/-- Claim C9, counterexample to the clause that every resource regenerates
by regenerationRate * deltaTime: a depleted resource with positive
regeneration rate is kept in the collection but its update is skipped, so
its amount does not change although rate * deltaTime is 1. -/
theorem C9_counterexample :
    updateResources [depletedPlant] 1 = [depletedPlant] ∧
    depletedPlant.amount + depletedPlant.regenerationRate * 1 ≠
      depletedPlant.amount := by
  constructor
  · decide
  · norm_num [depletedPlant]

/-- Claim C9 (amended): the per-tick resource update regenerates each
non-depleted resource with positive regeneration rate by rate * deltaTime,
leaves every other kept resource unchanged, keeps every non-depleted
resource and every depleted resource with positive regeneration rate, and
drops exactly the depleted resources without positive regeneration rate. -/
theorem C9_theorem (resources : List Resource) (dt : ℚ) :
    updateResources resources dt =
      resources.filterMap (fun r =>
        if r.isDepleted then
          (if 0 < r.regenerationRate then some r else none)
        else
          some { r with amount := r.amount +
            (if 0 < r.regenerationRate then r.regenerationRate * dt else 0) }) := by
  induction resources with
  | nil => rfl
  | cons r rs ih =>
    obtain ⟨rp, rt, ra, rr, rd⟩ := r
    simp only [updateResources, Resource.depleted, Resource.update] at ih ⊢
    simp only [List.map_cons, List.filter_cons, List.filterMap_cons]
    cases rd <;> by_cases hr : 0 < rr <;> simp [hr, ih]

/-- Claim C8: with the Math.random draws in range, mixing two nonnegative
traits with mutation factor 0 stays within the interval of the parents,
and with any positive mutation factor the result is at least 0. -/
theorem C8_theorem (a b w m f : ℚ) (ha : 0 ≤ a) (hb : 0 ≤ b)
    (hw0 : 0 ≤ w) (hw1 : w < 1) (hm0 : 0 ≤ m) (hm1 : m < 1) :
    (min a b ≤ mixTraits a b w m 0 ∧ mixTraits a b w m 0 ≤ max a b) ∧
    (0 < f → 0 ≤ mixTraits a b w m f) := by
  constructor
  · have h1 : min a b ≤ a * w + b * (1 - w) := by
      rcases le_total a b with h | h
      · rw [min_eq_left h]; nlinarith
      · rw [min_eq_right h]; nlinarith
    have h2 : a * w + b * (1 - w) ≤ max a b := by
      rcases le_total a b with h | h
      · rw [max_eq_right h]; nlinarith
      · rw [max_eq_left h]; nlinarith
    have h0 : (0:ℚ) ≤ min a b := le_min ha hb
    have hv : mixTraits a b w m 0 = a * w + b * (1 - w) := by
      simp only [mixTraits, mul_zero, zero_mul, add_zero]
      rw [max_eq_right (h0.trans h1)]
    rw [hv]
    exact ⟨h1, h2⟩
  · intro _
    exact le_max_left 0 _

/-- Witness for C8 at parents 1 and 2 with draws 0 and 1/2. -/
theorem C8_witness :
    ((0:ℚ) ≤ 1 ∧ (0:ℚ) ≤ 2 ∧ (0:ℚ) ≤ 0 ∧ (0:ℚ) < 1 ∧
      (0:ℚ) ≤ 1/2 ∧ (1/2:ℚ) < 1) ∧
    ((min (1:ℚ) 2 ≤ mixTraits 1 2 0 (1/2) 0 ∧
        mixTraits 1 2 0 (1/2) 0 ≤ max (1:ℚ) 2) ∧
      ((0:ℚ) < 1 → 0 ≤ mixTraits 1 2 0 (1/2) 1)) :=
  ⟨by norm_num,
   C8_theorem 1 2 0 (1/2) 1 (by norm_num) (by norm_num) (by norm_num)
     (by norm_num) (by norm_num) (by norm_num)⟩

/-- Claim C1, counterexample to the clause that every offspring has
generation max(self, partner) + 1: a generation-1 herbivore reproducing
with a generation-3 partner produces a litter whose only member has
generation 2, not 4. -/
theorem C1_counterexample :
    ((freshHerbivore.reproduce genThreePartner rndZero).2.map
      (fun c => c.stats.generation)) = [2] ∧
    (2 : ℕ) ≠
      max freshHerbivore.stats.generation genThreePartner.stats.generation
        + 1 := by
  have hf : ⌊((10 + 10 : ℚ)) / 30⌋ = 0 := by
    rw [Int.floor_eq_zero_iff]
    constructor <;> norm_num
  constructor
  · simp only [Animal.reproduce, herbivoreCreateOffspring, freshHerbivore,
      genThreePartner, mkAnimal, defaultHerbivoreTraits, hf]
    norm_num [List.range_succ]
  · simp only [freshHerbivore, genThreePartner, mkAnimal]
    norm_num

/-- Claim C1 (amended): for every reproduce call, every offspring in the
litter has generation equal to the generation of the calling parent plus
one (the generation of the partner is ignored), the litter holds at least
one offspring, and the children counter of the caller grows by exactly one
per call, regardless of the litter size. -/
theorem C1_theorem (self partner : Animal) (rnd : ℕ → ℚ) :
    (self.reproduce partner rnd).1.stats.children = self.stats.children + 1 ∧
    1 ≤ (self.reproduce partner rnd).2.length ∧
    ∀ c ∈ (self.reproduce partner rnd).2,
      c.stats.generation = self.stats.generation + 1 := by
  refine ⟨rfl, ?_, ?_⟩
  · have h1 : (1:ℤ) ≤ max 1
        ⌊(self.traits.reproductiveUrge + partner.traits.reproductiveUrge) / 30⌋ :=
      le_max_left _ _
    simp only [Animal.reproduce, herbivoreCreateOffspring, List.length_map,
      List.length_range]
    omega
  · intro c hc
    simp only [Animal.reproduce, herbivoreCreateOffspring, List.mem_map,
      List.mem_range] at hc
    obtain ⟨i, _, rfl⟩ := hc
    rfl

/-- Claim C3, counterexample to the clause that every mutation of energy
clamps the value into the interval from 0 to 100: the public energy setter
stores 150 unchanged. -/
theorem C3_counterexample :
    (freshHerbivore.setEnergy 150).energy = 150 ∧ ¬ ((150:ℚ) ≤ 100) :=
  ⟨rfl, by norm_num⟩

/-- Claim C3 (amended): consumeEnergy clamps below at 0 and gainEnergy
clamps above at 100, so for nonnegative amounts both keep energy inside
the interval from 0 to 100 and neither touches health; consequently the
per-tick update of an animal with nonnegative speed and metabolism and a
nonnegative time step preserves the bounds on energy and leaves health
unchanged.  The public energy setter, however, performs no clamping. -/
theorem C3_theorem (a : Animal) (x dt : ℚ) (hx : 0 ≤ x)
    (he0 : 0 ≤ a.energy) (he1 : a.energy ≤ 100)
    (hsp : 0 ≤ a.traits.speed) (hmet : 0 ≤ a.traits.metabolism)
    (hdt : 0 ≤ dt) :
    (0 ≤ (a.consumeEnergy x).energy ∧ (a.consumeEnergy x).energy ≤ 100 ∧
      (a.consumeEnergy x).health = a.health) ∧
    (0 ≤ (a.gainEnergy x).energy ∧ (a.gainEnergy x).energy ≤ 100 ∧
      (a.gainEnergy x).health = a.health) ∧
    (0 ≤ (a.update dt).energy ∧ (a.update dt).energy ≤ 100 ∧
      (a.update dt).health = a.health) := by
  have hcons : ∀ (b : Animal) (y : ℚ), 0 ≤ y → 0 ≤ b.energy → b.energy ≤ 100 →
      0 ≤ (b.consumeEnergy y).energy ∧ (b.consumeEnergy y).energy ≤ 100 ∧
      (b.consumeEnergy y).health = b.health := by
    intro b y hy hb0 hb1
    refine ⟨le_max_left _ _, ?_, rfl⟩
    simp only [Animal.consumeEnergy]
    rw [max_le_iff]
    constructor <;> linarith
  have hgain : ∀ (b : Animal) (y : ℚ), 0 ≤ y → 0 ≤ b.energy → b.energy ≤ 100 →
      0 ≤ (b.gainEnergy y).energy ∧ (b.gainEnergy y).energy ≤ 100 ∧
      (b.gainEnergy y).health = b.health := by
    intro b y hy hb0 hb1
    refine ⟨?_, min_le_left _ _, rfl⟩
    simp only [Animal.gainEnergy]
    rw [le_min_iff]
    constructor <;> linarith
  refine ⟨hcons a x hx he0 he1, hgain a x hx he0 he1, ?_⟩
  by_cases hdead : a.isDead
  · simp [Animal.update, hdead, he0, he1]
  · have key : ∀ b : Animal, 0 ≤ b.energy → b.energy ≤ 100 →
        0 ≤ b.traits.speed → 0 ≤ b.traits.metabolism → b.health = a.health →
        0 ≤ (if b.traits.lifespan ≤ b.age ∨ b.energy ≤ 0 then b.die
              else b.performStateAction dt).energy ∧
        (if b.traits.lifespan ≤ b.age ∨ b.energy ≤ 0 then b.die
          else b.performStateAction dt).energy ≤ 100 ∧
        (if b.traits.lifespan ≤ b.age ∨ b.energy ≤ 0 then b.die
          else b.performStateAction dt).health = a.health := by
      intro b hb0 hb1 hbs hbm hbh
      by_cases hcond : b.traits.lifespan ≤ b.age ∨ b.energy ≤ 0
      · simp only [if_pos hcond, Animal.die]
        by_cases hd2 : b.isDead <;> simp [hd2, hb0, hb1, hbh]
      · simp only [if_neg hcond]
        cases hst : b.state <;>
          simp only [Animal.performStateAction, hst, Animal.performSleeping,
            Animal.performMoving, Animal.performEating, Animal.performMating,
            Animal.performIdle]
        · have h := hcons b (1/10 * b.traits.metabolism * dt)
            (by nlinarith) hb0 hb1
          exact ⟨h.1, h.2.1, h.2.2.trans hbh⟩
        · have h := hcons _ (1/5 * b.traits.speed * dt)
            (by nlinarith) hb0 hb1
          exact ⟨h.1, h.2.1, h.2.2.trans hbh⟩
        · exact ⟨hb0, hb1, hbh⟩
        · have h := hgain b (3/2 * b.traits.metabolism * dt)
            (by nlinarith) hb0 hb1
          exact ⟨h.1, h.2.1, h.2.2.trans hbh⟩
        · have h := hcons b (10 * dt) (by nlinarith) hb0 hb1
          exact ⟨h.1, h.2.1, h.2.2.trans hbh⟩
        · have h := hcons b (1/10 * b.traits.metabolism * dt)
            (by nlinarith) hb0 hb1
          exact ⟨h.1, h.2.1, h.2.2.trans hbh⟩
    simp only [Animal.update, hdead, Bool.false_eq_true, if_false]
    refine key _ (le_max_left _ _) ?_ hsp hmet rfl
    show max 0 (a.energy - a.traits.metabolism * dt) ≤ 100
    rw [max_le_iff]
    exact ⟨by norm_num, by nlinarith [mul_nonneg hmet hdt]⟩

/-- Witness for C3 at the fresh default herbivore with amount 5 and time
step 1. -/
theorem C3_witness :
    ((0:ℚ) ≤ 5 ∧ 0 ≤ freshHerbivore.energy ∧ freshHerbivore.energy ≤ 100) ∧
    ((0 ≤ (freshHerbivore.consumeEnergy 5).energy ∧
        (freshHerbivore.consumeEnergy 5).energy ≤ 100 ∧
        (freshHerbivore.consumeEnergy 5).health = freshHerbivore.health) ∧
      (0 ≤ (freshHerbivore.gainEnergy 5).energy ∧
        (freshHerbivore.gainEnergy 5).energy ≤ 100 ∧
        (freshHerbivore.gainEnergy 5).health = freshHerbivore.health) ∧
      (0 ≤ (freshHerbivore.update 1).energy ∧
        (freshHerbivore.update 1).energy ≤ 100 ∧
        (freshHerbivore.update 1).health = freshHerbivore.health)) :=
  ⟨by norm_num [freshHerbivore, mkAnimal],
   C3_theorem freshHerbivore 5 1 (by norm_num)
     (by norm_num [freshHerbivore, mkAnimal])
     (by norm_num [freshHerbivore, mkAnimal])
     (by norm_num [freshHerbivore, mkAnimal, defaultHerbivoreTraits])
     (by norm_num [freshHerbivore, mkAnimal, defaultHerbivoreTraits])
     (by norm_num)⟩

/-- Claim C4: the statistics object of the Simulation has no
carnivoreCount field at all (the object literal of getStatistics carries
only totalAnimals, herbivoreCount, averageGeneration, highestGeneration
and the simulation time), so the claimed equation totalAnimals =
herbivoreCount + carnivoreCount is not even expressible; at a concrete
two-herbivore state the present fields are correct and nonnegative. -/
theorem C4_theorem :
    (getStatistics [freshHerbivore, freshHerbivore] 0).lookup
      StatField.carnivoreCount = none ∧
    (getStatistics [freshHerbivore, freshHerbivore] 0).lookup
      StatField.plantsCount = none ∧
    (getStatistics [freshHerbivore, freshHerbivore] 0).lookup
      StatField.totalAnimals = some 2 ∧
    (getStatistics [freshHerbivore, freshHerbivore] 0).lookup
      StatField.herbivoreCount = some 2 := by
  refine ⟨?_, ?_, ?_, ?_⟩ <;> decide

/-- Claim C10: mate never modifies the partner; of the caller, only the
state (possibly moving to MATING) and the energy (the carnivore override
pays the mating cost) can change, and every other field of the caller is
unchanged.  This covers the base Animal.mate used by herbivores and the
Carnivore.mate override. -/
theorem C10_theorem (a p : Animal) :
    (a.mate p).2 = p ∧
    (a.mate p).1.species = a.species ∧
    (a.mate p).1.position = a.position ∧
    (a.mate p).1.direction = a.direction ∧
    (a.mate p).1.age = a.age ∧
    (a.mate p).1.health = a.health ∧
    (a.mate p).1.traits = a.traits ∧
    (a.mate p).1.stats = a.stats ∧
    (a.mate p).1.isDead = a.isDead ∧
    ((a.mate p).1.state = a.state ∨ (a.mate p).1.state = AnimalState.MATING) := by
  cases hs : a.species <;>
    simp only [Animal.mate, hs, carnivoreMate, Animal.consumeEnergy] <;>
    split_ifs <;> simp [hs]

/-- Claim C5, counterexample to the clauses that a successful attack gains
exactly min(preyHealth * 0.5, 50) energy and increments foodEaten by
exactly one: the attack first runs eat, which already gains 30 energy and
increments foodEaten, so a strength-100 predator with energy 0 killing a
speed-1, energy-0, health-100 prey ends with energy 80 (not 50) and
foodEaten raised by 2 (not 1). -/
theorem C5_counterexample :
    (predatorC.attackPrey preyWeak 0).1.animal.stats.foodEaten = 2 ∧
    (2:ℚ) ≠ predatorC.animal.stats.foodEaten + 1 ∧
    (predatorC.attackPrey preyWeak 0).1.animal.energy = 80 ∧
    (80:ℚ) ≠ predatorC.animal.energy + min (preyWeak.health * (1/2)) 50 := by
  have hc : preyDefense preyWeak <
      attackPower { predatorC with lastHuntTime := 0 } 0 := by
    norm_num [preyDefense, attackPower, predatorC, preyWeak, mkAnimal]
  refine ⟨?_, ?_, ?_, ?_⟩
  · simp only [Carnivore.attackPrey, if_pos hc, Carnivore.eat,
      Animal.gainEnergy, reduceIte]
    norm_num [predatorC, mkAnimal]
  · norm_num [predatorC, mkAnimal]
  · simp only [Carnivore.attackPrey, if_pos hc, Carnivore.eat,
      Animal.gainEnergy, reduceIte]
    norm_num [predatorC, preyWeak, mkAnimal, min_def]
  · norm_num [predatorC, preyWeak, mkAnimal, min_def]

/-- Claim C5 (amended): on success (attack power strictly above the prey
defense) the prey liveness flag is cleared immediately, foodEaten grows by
2 (once inside eat and once in attackPrey), and the energy of the attacker
becomes min(100, min(100, energy + 30) + min(preyHealth * 0.5, 50)); on
failure the attacker loses 10 energy (floored at 0) and the prey is
unchanged.  A strength-100 attacker against prey with speed 1 and energy 0
succeeds for every random draw in range, kills the prey, and strictly
gains energy whenever its energy is below 100 and the prey health is
nonnegative. -/
theorem C5_theorem (self : Carnivore) (prey : Animal) (r : ℚ)
    (hr0 : 0 ≤ r) (hr1 : r < 1) :
    (preyDefense prey < attackPower self r →
      ((self.attackPrey prey r).2).isDead = true ∧
      (self.attackPrey prey r).1.animal.stats.foodEaten
        = self.animal.stats.foodEaten + 2 ∧
      (self.attackPrey prey r).1.animal.energy
        = min 100 (min 100 (self.animal.energy + 30)
            + min (prey.health * (1/2)) 50)) ∧
    (attackPower self r ≤ preyDefense prey →
      (self.attackPrey prey r).2 = prey ∧
      (self.attackPrey prey r).1.animal.energy
        = max 0 (self.animal.energy - 10) ∧
      (self.attackPrey prey r).1.animal.stats.foodEaten
        = self.animal.stats.foodEaten) ∧
    (self.animal.traits.strength = 100 → prey.traits.speed = 1 →
      prey.energy = 0 → 0 ≤ prey.health →
      preyDefense prey < attackPower self r ∧
      ((self.attackPrey prey r).2).isDead = true ∧
      (self.animal.energy < 100 →
        self.animal.energy < (self.attackPrey prey r).1.animal.energy)) := by
  have hpow : attackPower { self with lastHuntTime := 0 } r
      = attackPower self r := rfl
  have succCase : preyDefense prey < attackPower self r →
      ((self.attackPrey prey r).2).isDead = true ∧
      (self.attackPrey prey r).1.animal.stats.foodEaten
        = self.animal.stats.foodEaten + 2 ∧
      (self.attackPrey prey r).1.animal.energy
        = min 100 (min 100 (self.animal.energy + 30)
            + min (prey.health * (1/2)) 50) := by
    intro h
    have h' : preyDefense prey < attackPower { self with lastHuntTime := 0 } r := h
    simp only [Carnivore.attackPrey, if_pos h', Carnivore.eat,
      Animal.gainEnergy, reduceIte]
    exact ⟨die_isDead prey, by ring, by trivial⟩
  refine ⟨succCase, ?_, ?_⟩
  · intro h
    have h' : ¬ (preyDefense prey <
        attackPower { self with lastHuntTime := 0 } r) := by
      rw [hpow]; exact not_lt.mpr h
    simp only [Carnivore.attackPrey, if_neg h', Animal.consumeEnergy]
    exact ⟨by trivial, by trivial, by trivial⟩
  · intro hstr hspd hen hh
    have hlt : preyDefense prey < attackPower self r := by
      simp only [preyDefense, attackPower, hstr, hspd, hen]
      nlinarith
    obtain ⟨hdead, _, hener⟩ := succCase hlt
    refine ⟨hlt, hdead, ?_⟩
    intro he
    rw [hener]
    have hg : (0:ℚ) ≤ min (prey.health * (1/2)) 50 :=
      le_min (by linarith) (by norm_num)
    have h1 : self.animal.energy < min 100 (self.animal.energy + 30) :=
      lt_min he (by linarith)
    have h2 : min 100 (self.animal.energy + 30) ≤
        min 100 (self.animal.energy + 30) + min (prey.health * (1/2)) 50 :=
      le_add_of_nonneg_right hg
    exact lt_min he (by linarith)

/-- Witness for C5 at the strength-100 predator with energy 0 attacking
the speed-1 energy-0 prey, with random draw 0. -/
theorem C5_witness :
    ((0:ℚ) ≤ 0 ∧ (0:ℚ) < 1) ∧
    ((preyDefense preyWeak < attackPower predatorC 0 →
      ((predatorC.attackPrey preyWeak 0).2).isDead = true ∧
      (predatorC.attackPrey preyWeak 0).1.animal.stats.foodEaten
        = predatorC.animal.stats.foodEaten + 2 ∧
      (predatorC.attackPrey preyWeak 0).1.animal.energy
        = min 100 (min 100 (predatorC.animal.energy + 30)
            + min (preyWeak.health * (1/2)) 50)) ∧
    (attackPower predatorC 0 ≤ preyDefense preyWeak →
      (predatorC.attackPrey preyWeak 0).2 = preyWeak ∧
      (predatorC.attackPrey preyWeak 0).1.animal.energy
        = max 0 (predatorC.animal.energy - 10) ∧
      (predatorC.attackPrey preyWeak 0).1.animal.stats.foodEaten
        = predatorC.animal.stats.foodEaten) ∧
    (predatorC.animal.traits.strength = 100 → preyWeak.traits.speed = 1 →
      preyWeak.energy = 0 → 0 ≤ preyWeak.health →
      preyDefense preyWeak < attackPower predatorC 0 ∧
      ((predatorC.attackPrey preyWeak 0).2).isDead = true ∧
      (predatorC.animal.energy < 100 →
        predatorC.animal.energy <
          (predatorC.attackPrey preyWeak 0).1.animal.energy))) :=
  ⟨⟨le_refl 0, by norm_num⟩,
   C5_theorem predatorC preyWeak 0 (le_refl 0) (by norm_num)⟩

/-- Claim C7: for a live animal, one update first adds deltaTime to age
and timeAlive and drains metabolism * deltaTime energy (floored at 0), and
then the animal transitions to DEAD and skips its behaviour exactly when
the new age reaches the lifespan or the drained energy is at most 0 (the
death case returns exactly the aged and drained record with the liveness
flag set, so no behaviour runs).  Consequently a freshly constructed
animal with metabolism 50 and any positive traits is dead within three
updates of deltaTime 1, and a live animal whose age is set to
lifespan - 0.5 is dead after one update of deltaTime 1. -/
theorem C7_theorem :
    (∀ (a : Animal) (dt : ℚ), a.isDead = false → a.state ≠ AnimalState.DEAD →
      0 < dt →
      (((a.update dt).state = AnimalState.DEAD ↔
        (a.traits.lifespan ≤ a.age + dt ∨
          a.energy - a.traits.metabolism * dt ≤ 0)) ∧
      ((a.traits.lifespan ≤ a.age + dt ∨
          a.energy - a.traits.metabolism * dt ≤ 0) →
        a.update dt = { a with
          age := a.age + dt,
          state := AnimalState.DEAD,
          energy := max 0 (a.energy - a.traits.metabolism * dt),
          stats := { a.stats with timeAlive := a.stats.timeAlive + dt },
          isDead := true }))) ∧
    (∀ (s : Species) (p : Position) (t : Traits) (w h : ℚ),
      0 < t.speed → 0 < t.strength → 0 < t.perception →
      0 < t.reproductiveUrge → 0 < t.lifespan → t.metabolism = 50 →
      ((((mkAnimal s p t w h).update 1).update 1).update 1).isDead = true) ∧
    (∀ a : Animal, a.isDead = false →
      (({ a with age := a.traits.lifespan - 1/2 }).update 1).isDead = true) := by
  have hdieImpl : ∀ (a : Animal) (dt : ℚ), a.isDead = false →
      (a.traits.lifespan ≤ a.age + dt ∨
        a.energy - a.traits.metabolism * dt ≤ 0) →
      a.update dt = { a with
        age := a.age + dt,
        state := AnimalState.DEAD,
        energy := max 0 (a.energy - a.traits.metabolism * dt),
        stats := { a.stats with timeAlive := a.stats.timeAlive + dt },
        isDead := true } := by
    intro a dt hd hC
    simp only [Animal.update, hd, Bool.false_eq_true, if_false,
      Animal.consumeEnergy]
    rw [if_pos ?hc]
    case hc =>
      rcases hC with h | h
      · exact Or.inl h
      · exact Or.inr (max_le le_rfl h)
    simp [Animal.die]
  refine ⟨?_, ?_, ?_⟩
  · intro a dt hd hs hdt
    have hstate : ¬(a.traits.lifespan ≤ a.age + dt ∨
        a.energy - a.traits.metabolism * dt ≤ 0) →
        (a.update dt).state = a.state := by
      intro hC
      simp only [Animal.update, hd, Bool.false_eq_true, if_false,
        Animal.consumeEnergy]
      rw [if_neg ?hc2]
      case hc2 =>
        rintro (h | h)
        · exact hC (Or.inl h)
        · exact hC (Or.inr (max_le_iff.mp h).2)
      rw [performStateAction_state]
    constructor
    · constructor
      · intro hds
        by_contra hC
        rw [hstate hC] at hds
        exact hs hds
      · intro hC
        rw [hdieImpl a dt hd hC]
    · exact hdieImpl a dt hd
  · intro s p t w h _ _ _ _ _ hmet
    obtain ⟨tsp, tst, tpe, tme, tru, tli⟩ := t
    have hm : tme = 50 := hmet
    subst hm
    by_cases hL : tli ≤ (0:ℚ) + 1
    · have h1 := hdieImpl (mkAnimal s p ⟨tsp, tst, tpe, 50, tru, tli⟩ w h) 1
        rfl (Or.inl hL)
      rw [h1, update_dead _ _ rfl, update_dead _ _ rfl]
    · have h1 : (mkAnimal s p ⟨tsp, tst, tpe, 50, tru, tli⟩ w h).update 1 =
          { mkAnimal s p ⟨tsp, tst, tpe, 50, tru, tli⟩ w h with
              age := 1, energy := 45,
              stats := { (mkAnimal s p ⟨tsp, tst, tpe, 50, tru, tli⟩ w h).stats
                with timeAlive := 1 } } := by
        simp only [Animal.update, mkAnimal, Animal.consumeEnergy]
        rw [if_neg (not_or.mpr ⟨hL, by norm_num⟩)]
        simp only [Animal.performStateAction, Animal.performIdle,
          Animal.consumeEnergy]
        norm_num
      have h2 := hdieImpl
        ({ mkAnimal s p ⟨tsp, tst, tpe, 50, tru, tli⟩ w h with
            age := 1, energy := 45,
            stats := { (mkAnimal s p ⟨tsp, tst, tpe, 50, tru, tli⟩ w h).stats
              with timeAlive := 1 } }) 1 rfl
        (Or.inr (by show (45:ℚ) - 50 * 1 ≤ 0; norm_num))
      rw [h1, h2, update_dead _ _ rfl]
  · intro a ha
    have h := hdieImpl { a with age := a.traits.lifespan - 1/2 } 1 ha
      (Or.inl (by simp only; linarith))
    rw [h]

/-- Witness for C7 at the fresh default herbivore (for the death-check
clauses) and at a fresh animal with metabolism 50 (for the three-tick
clause). -/
theorem C7_witness :
    (freshHerbivore.isDead = false ∧ freshHerbivore.state ≠ AnimalState.DEAD ∧
      (0:ℚ) < 1 ∧ 0 < highMetabolismTraits.speed ∧
      highMetabolismTraits.metabolism = 50) ∧
    (((freshHerbivore.update 1).state = AnimalState.DEAD ↔
      (freshHerbivore.traits.lifespan ≤ freshHerbivore.age + 1 ∨
        freshHerbivore.energy - freshHerbivore.traits.metabolism * 1 ≤ 0)) ∧
    ((((mkAnimal Species.herbivore ⟨0, 0⟩ highMetabolismTraits 100 100).update
        1).update 1).update 1).isDead = true ∧
    ((({ freshHerbivore with
        age := freshHerbivore.traits.lifespan - 1/2 }).update 1).isDead
      = true)) :=
  ⟨⟨rfl, by decide, by norm_num, by norm_num [highMetabolismTraits], rfl⟩,
   (C7_theorem.1 freshHerbivore 1 rfl (by decide) (by norm_num)).1,
   C7_theorem.2.1 Species.herbivore ⟨0, 0⟩ highMetabolismTraits 100 100
     (by norm_num [highMetabolismTraits]) (by norm_num [highMetabolismTraits])
     (by norm_num [highMetabolismTraits]) (by norm_num [highMetabolismTraits])
     (by norm_num [highMetabolismTraits]) rfl,
   C7_theorem.2.2 freshHerbivore rfl⟩

/-- One-step unfolding of the inner interaction loop at positive fuel,
with the local bindings of the body written out. -/
theorem interactInner_succ (streams : ℕ → ℕ → ℚ) (i fuel j : ℕ)
    (animals : List Animal) (c : ℕ) :
    interactInner streams i (fuel + 1) j animals c =
      if animals.length ≤ j then (animals, c)
      else if (animals.getD j dummyAnimal).isDead then
        interactInner streams i fuel (j + 1) animals c
      else if distanceSq (animals.getD i dummyAnimal).position
          (animals.getD j dummyAnimal).position < 4 then
        if 50 < (animals.getD i dummyAnimal).energy ∧
            50 < (animals.getD j dummyAnimal).energy then
          if (((animals.set i
                ((animals.getD i dummyAnimal).mate
                  (animals.getD j dummyAnimal)).1).set j
                ((animals.getD i dummyAnimal).mate
                  (animals.getD j dummyAnimal)).2).getD i
                dummyAnimal).state = AnimalState.MATING ∧
              (((animals.set i
                ((animals.getD i dummyAnimal).mate
                  (animals.getD j dummyAnimal)).1).set j
                ((animals.getD i dummyAnimal).mate
                  (animals.getD j dummyAnimal)).2).getD j
                dummyAnimal).state = AnimalState.MATING then
            interactInner streams i fuel (j + 1)
              ((((animals.set i
                  ((animals.getD i dummyAnimal).mate
                    (animals.getD j dummyAnimal)).1).set j
                  ((animals.getD i dummyAnimal).mate
                    (animals.getD j dummyAnimal)).2).set i
                  ((((animals.set i
                      ((animals.getD i dummyAnimal).mate
                        (animals.getD j dummyAnimal)).1).set j
                      ((animals.getD i dummyAnimal).mate
                        (animals.getD j dummyAnimal)).2).getD i
                      dummyAnimal).reproduce
                    (((animals.set i
                      ((animals.getD i dummyAnimal).mate
                        (animals.getD j dummyAnimal)).1).set j
                      ((animals.getD i dummyAnimal).mate
                        (animals.getD j dummyAnimal)).2).getD j
                      dummyAnimal) (streams c)).1) ++
                ((((animals.set i
                    ((animals.getD i dummyAnimal).mate
                      (animals.getD j dummyAnimal)).1).set j
                    ((animals.getD i dummyAnimal).mate
                      (animals.getD j dummyAnimal)).2).getD i
                    dummyAnimal).reproduce
                  (((animals.set i
                    ((animals.getD i dummyAnimal).mate
                      (animals.getD j dummyAnimal)).1).set j
                    ((animals.getD i dummyAnimal).mate
                      (animals.getD j dummyAnimal)).2).getD j
                    dummyAnimal) (streams c)).2) (c + 1)
          else
            interactInner streams i fuel (j + 1)
              ((animals.set i
                ((animals.getD i dummyAnimal).mate
                  (animals.getD j dummyAnimal)).1).set j
                ((animals.getD i dummyAnimal).mate
                  (animals.getD j dummyAnimal)).2) c
        else interactInner streams i fuel (j + 1) animals c
      else interactInner streams i fuel (j + 1) animals c := rfl

/-- One-step unfolding of the outer interaction loop at positive fuel. -/
theorem interactOuter_succ (streams : ℕ → ℕ → ℚ) (fuel i : ℕ)
    (animals : List Animal) (c : ℕ) :
    interactOuter streams (fuel + 1) i animals c =
      if animals.length ≤ i then (animals, c)
      else if (animals.getD i dummyAnimal).isDead then
        interactOuter streams fuel (i + 1) animals c
      else
        interactOuter streams fuel (i + 1)
          (interactInner streams i (fuel + 1) (i + 1) animals c).1
          (interactInner streams i (fuel + 1) (i + 1) animals c).2 := rfl

/-- Helper: one interaction pass over exactly two live herbivores at the
same position with energy 60 and ages inside the maturity window (taken,
as the code does, relative to the lifespan of the first animal) invokes
mate only on the first animal of the pair: the first moves to MATING, the
second is untouched, and since the second never reaches the MATING state
no reproduce call happens and no offspring is appended. -/
theorem pass_two (a b : Animal) (streams : ℕ → ℕ → ℚ) (m : ℕ)
    (ha : a.species = Species.herbivore) (hb : b.species = Species.herbivore)
    (hpos : a.position = b.position)
    (hea : a.energy = 60) (heb : b.energy = 60)
    (hda : a.isDead = false) (hdb : b.isDead = false)
    (hbs : b.state = AnimalState.IDLE)
    (hma : a.traits.lifespan * (1/10) ≤ a.age)
    (hmb : a.traits.lifespan * (1/10) ≤ b.age)
    (hxa : a.age ≤ a.traits.lifespan * (8/10))
    (hxb : b.age ≤ a.traits.lifespan * (8/10)) :
    handleAnimalInteractions [a, b] streams (m + 3)
      = [{ a with state := AnimalState.MATING }, b] := by
  have hcan : herbivoreCanMateWith a b = true := by
    simp only [herbivoreCanMateWith]
    rw [if_neg (by simp [hb])]
    rw [if_neg (by rw [hea, heb]; push_neg; norm_num)]
    rw [if_neg (by push_neg; exact ⟨hma, hmb⟩)]
    rw [if_neg (by push_neg; exact ⟨hxa, hxb⟩)]
  have hmate : Animal.mate a b = ({ a with state := AnimalState.MATING }, b) := by
    simp only [Animal.mate, ha, hcan, if_true]
  have hdist : distanceSq a.position b.position < 4 := by
    rw [hpos]
    simp only [distanceSq, sub_self]
    norm_num
  have hmate1 : (a.mate b).1 = { a with state := AnimalState.MATING } := by
    rw [hmate]
  have hmate2 : (a.mate b).2 = b := by
    rw [hmate]
  have hgA : ([a, b] : List Animal).getD 0 dummyAnimal = a := rfl
  have hgB : ([a, b] : List Animal).getD 1 dummyAnimal = b := rfl
  have hset : (([a, b].set 0 ({ a with state := AnimalState.MATING } : Animal)).set
      1 b) = [{ a with state := AnimalState.MATING }, b] := rfl
  have hg0 : ([{ a with state := AnimalState.MATING }, b] : List Animal).getD 0
      dummyAnimal = { a with state := AnimalState.MATING } := rfl
  have hg1 : ([{ a with state := AnimalState.MATING }, b] : List Animal).getD 1
      dummyAnimal = b := rfl
  have hstateA : ({ a with state := AnimalState.MATING } : Animal).state
      = AnimalState.MATING := rfl
  have hinner1 : interactInner streams 0 (m + 2 + 1) (0 + 1) [a, b] 0
      = ([{ a with state := AnimalState.MATING }, b], 0) := by
    rw [interactInner_succ]
    rw [if_neg (show ¬ (([a, b] : List Animal).length ≤ 0 + 1) by simp)]
    rw [show (0 + 1 : ℕ) = 1 from rfl, hgA, hgB, hdb]
    simp only [Bool.false_eq_true, if_false]
    rw [if_pos hdist]
    rw [if_pos (show 50 < a.energy ∧ 50 < b.energy from
      ⟨by rw [hea]; norm_num, by rw [heb]; norm_num⟩)]
    rw [hmate1, hmate2, hset, hg0, hg1, hstateA, hbs]
    rw [if_neg (show ¬ (AnimalState.MATING = AnimalState.MATING ∧
      AnimalState.IDLE = AnimalState.MATING) by simp)]
    exact interactInner_exit streams 0 (m + 2) (1 + 1) _ 0 (by norm_num)
  show (interactOuter streams (m + 2 + 1) 0 [a, b] 0).1 = _
  rw [interactOuter_succ]
  rw [if_neg (show ¬ (([a, b] : List Animal).length ≤ 0) by simp)]
  rw [hgA, hda]
  simp only [Bool.false_eq_true, if_false]
  rw [hinner1]
  rw [show m + 2 = m + 1 + 1 from rfl]
  rw [interactOuter_succ]
  rw [if_neg (show
    ¬ (([{ a with state := AnimalState.MATING }, b] : List Animal).length ≤ 0 + 1)
    by simp)]
  rw [show (0 + 1 : ℕ) = 1 from rfl, hg1, hdb]
  simp only [Bool.false_eq_true, if_false]
  rw [interactInner_exit streams 1 (m + 1 + 1) (1 + 1) _ 0 (by norm_num)]
  rw [interactOuter_exit streams (m + 1) (1 + 1) _ 0 (by norm_num)]
  rw [hda]

/-- Claim C2, counterexample to the clause that one interaction pass
invokes mate on both animals, moves both to MATING, and appends at least
one offspring: for two mature herbivores at the same position with energy
60, the pass leaves the second animal in the IDLE state (mate is invoked
only on the first) and the collection still holds exactly the two
animals, so no offspring was produced. -/
theorem C2_counterexample :
    (handleAnimalInteractions [herbA, herbB] streamsZero (5 + 3)).length = 2 ∧
    ((handleAnimalInteractions [herbA, herbB] streamsZero (5 + 3)).getD 1
      dummyAnimal).state = AnimalState.IDLE ∧
    AnimalState.IDLE ≠ AnimalState.MATING := by
  have h := pass_two herbA herbB streamsZero 5 rfl rfl rfl rfl rfl rfl rfl rfl
    (by norm_num [herbA, freshHerbivore, mkAnimal, defaultHerbivoreTraits])
    (by norm_num [herbA, herbB, freshHerbivore, mkAnimal,
      defaultHerbivoreTraits])
    (by norm_num [herbA, freshHerbivore, mkAnimal, defaultHerbivoreTraits])
    (by norm_num [herbA, herbB, freshHerbivore, mkAnimal,
      defaultHerbivoreTraits])
  rw [h]
  exact ⟨rfl, rfl, by decide⟩

/-- Claim C2 (amended): for two live herbivores at the same position, each
with energy 60 and ages inside the maturity window taken relative to the
lifespan of the first animal, one interaction pass (with any fuel of at
least 3) invokes mate only on the first animal of the pair: the first
transitions to MATING, the second keeps its IDLE state and all other
fields, and reproduce is never called, so no offspring is appended. -/
theorem C2_theorem (a b : Animal) (streams : ℕ → ℕ → ℚ) (m : ℕ)
    (ha : a.species = Species.herbivore) (hb : b.species = Species.herbivore)
    (hpos : a.position = b.position)
    (hea : a.energy = 60) (heb : b.energy = 60)
    (hda : a.isDead = false) (hdb : b.isDead = false)
    (hbs : b.state = AnimalState.IDLE)
    (hma : a.traits.lifespan * (1/10) ≤ a.age)
    (hmb : a.traits.lifespan * (1/10) ≤ b.age)
    (hxa : a.age ≤ a.traits.lifespan * (8/10))
    (hxb : b.age ≤ a.traits.lifespan * (8/10)) :
    handleAnimalInteractions [a, b] streams (m + 3)
      = [{ a with state := AnimalState.MATING }, b] :=
  pass_two a b streams m ha hb hpos hea heb hda hdb hbs hma hmb hxa hxb

/-- Witness for C2 at the two concrete mature herbivores with energy 60 at
position (50, 50). -/
theorem C2_witness :
    (herbA.species = Species.herbivore ∧ herbB.species = Species.herbivore ∧
      herbA.position = herbB.position ∧ herbA.energy = 60 ∧
      herbB.energy = 60 ∧ herbA.isDead = false ∧ herbB.isDead = false ∧
      herbB.state = AnimalState.IDLE ∧
      herbA.traits.lifespan * (1/10) ≤ herbA.age ∧
      herbA.traits.lifespan * (1/10) ≤ herbB.age ∧
      herbA.age ≤ herbA.traits.lifespan * (8/10) ∧
      herbB.age ≤ herbA.traits.lifespan * (8/10)) ∧
    handleAnimalInteractions [herbA, herbB] streamsZero (0 + 3)
      = [{ herbA with state := AnimalState.MATING }, herbB] :=
  ⟨⟨rfl, rfl, rfl, rfl, rfl, rfl, rfl, rfl,
    by norm_num [herbA, freshHerbivore, mkAnimal, defaultHerbivoreTraits],
    by norm_num [herbA, herbB, freshHerbivore, mkAnimal,
      defaultHerbivoreTraits],
    by norm_num [herbA, freshHerbivore, mkAnimal, defaultHerbivoreTraits],
    by norm_num [herbA, herbB, freshHerbivore, mkAnimal,
      defaultHerbivoreTraits]⟩,
   C2_theorem herbA herbB streamsZero 0 rfl rfl rfl rfl rfl rfl rfl rfl
    (by norm_num [herbA, freshHerbivore, mkAnimal, defaultHerbivoreTraits])
    (by norm_num [herbA, herbB, freshHerbivore, mkAnimal,
      defaultHerbivoreTraits])
    (by norm_num [herbA, freshHerbivore, mkAnimal, defaultHerbivoreTraits])
    (by norm_num [herbA, herbB, freshHerbivore, mkAnimal,
      defaultHerbivoreTraits])⟩

end Organizm
